import Mathlib

/-!
Shallow embedding of the config-file validator (`validator.py`, class
`ConfigValidator`) and proofs of the specified properties.

File contents are external inputs to the Python program: each validator
opens a file and parses it with `yaml.safe_load` / `json.load` (or reads the
raw text, for Terraform).  The embedding therefore takes the outcome of that
read-and-parse step as an explicit argument (`ReadParse` / `ReadRaw`), and
the parsed document is a `Yaml` value tree.  Error messages are built as the
Python code builds them, with \x7b, \x7d and \x27 standing for the brace and
quote characters.
-/

namespace ConfigValidator

/-- A parsed YAML/JSON document: scalars, sequences and mappings.
Mappings are association lists in document order (Python dict order). -/
inductive Yaml where
  | str (s : String)
  | int (n : Int)
  | bool (b : Bool)
  | null
  | seq (items : List Yaml)
  | map (entries : List (String × Yaml))

/-- Outcome of opening a file and parsing it (yaml.safe_load / json.load):
a document, a parser error (yaml.YAMLError / json.JSONDecodeError with its
message), or any other exception while reading. -/
inductive ReadParse where
  | ok (v : Yaml)
  | parseErr (msg : String)
  | readErr (msg : String)

/-- Outcome of opening a file and reading its raw text. -/
inductive ReadRaw where
  | ok (content : String)
  | readErr (msg : String)

/-- Python `k in content` for a parsed mapping. -/
def hasKey (entries : List (String × Yaml)) (k : String) : Bool :=
  entries.any (fun p => p.1 == k)

/-- Python `content[k]` for a parsed mapping (`none` when the key is absent). -/
def lookupKey (entries : List (String × Yaml)) (k : String) : Option Yaml :=
  match entries with
  | [] => none
  | (k2, v) :: rest => if k2 == k then some v else lookupKey rest k

/-- `validate_yaml`: YAML syntax check of a file. -/
def validate_yaml (file_path : String) (parsed : ReadParse) : Bool × List String :=
  match parsed with
  | .ok _ => (true, [])
  | .parseErr e => (false, ["YAML syntax error in " ++ file_path ++ ": " ++ e])
  | .readErr e => (false, ["Error reading " ++ file_path ++ ": " ++ e])

/-- `validate_json`: JSON syntax check of a file. -/
def validate_json (file_path : String) (parsed : ReadParse) : Bool × List String :=
  match parsed with
  | .ok _ => (true, [])
  | .parseErr e => (false, ["JSON syntax error in " ++ file_path ++ ": " ++ e])
  | .readErr e => (false, ["Error reading " ++ file_path ++ ": " ++ e])

/-- The per-service loop of `validate_docker_compose`: every service value
must be a mapping, and every service mapping must have image or build. -/
def composeServiceErrors (file_path : String)
    (services : List (String × Yaml)) : List String :=
  services.foldl
    (fun errors p =>
      match p.2 with
      | Yaml.map service_config =>
          if !(hasKey service_config "image") && !(hasKey service_config "build") then
            errors ++ [file_path ++ ": Service \x27" ++ p.1 ++
              "\x27 must have either \x27image\x27 or \x27build\x27"]
          else errors
      | _ => errors ++ [file_path ++ ": Service \x27" ++ p.1 ++ "\x27 must be a dictionary"])
    []

/-- `validate_docker_compose`, translated branch for branch from the source:
the missing-services error fires only when the parsed mapping has neither a
version key nor a services key. -/
def validate_docker_compose (file_path : String) (parsed : ReadParse) :
    Bool × List String :=
  match parsed with
  | .parseErr e => (false, ["YAML error in " ++ file_path ++ ": " ++ e])
  | .readErr e =>
      (false, ["Error validating Docker Compose file " ++ file_path ++ ": " ++ e])
  | .ok content =>
    match content with
    | Yaml.map entries =>
        if !(hasKey entries "version") && !(hasKey entries "services") then
          (false, [file_path ++ ": Missing \x27services\x27 key"])
        else
          match lookupKey entries "services" with
          | none => (true, [])
          | some (Yaml.map services) =>
              let errors := composeServiceErrors file_path services
              (errors.isEmpty, errors)
          | some _ => (false, [file_path ++ ": \x27services\x27 must be a dictionary"])
    | _ => (false, [file_path ++ ": Root must be a dictionary"])

/-- The required top-level Kubernetes fields, in the order the source checks them. -/
def required_fields : List String := ["apiVersion", "kind", "metadata"]

/-- The missing-required-field error message of `validate_kubernetes_manifest`. -/
def missingFieldError (file_path field : String) : String :=
  file_path ++ ": Missing required field \x27" ++ field ++ "\x27"

/-- The required-fields loop of `validate_kubernetes_manifest`: one error per
missing field, in order, with no short-circuit. -/
def requiredFieldErrors (file_path : String)
    (entries : List (String × Yaml)) : List String :=
  required_fields.foldl
    (fun errors field =>
      if hasKey entries field then errors
      else errors ++ [missingFieldError file_path field])
    []

/-- The metadata branch of `validate_kubernetes_manifest`. -/
def metadataErrors (file_path : String)
    (entries : List (String × Yaml)) : List String :=
  match lookupKey entries "metadata" with
  | none => []
  | some (Yaml.map metadata) =>
      if hasKey metadata "name" then []
      else [file_path ++ ": \x27metadata.name\x27 is required"]
  | some _ => [file_path ++ ": \x27metadata\x27 must be a dictionary"]

/-- The apiVersion format error message of `validate_kubernetes_manifest`. -/
def apiVersionError (file_path : String) : String :=
  file_path ++ ": \x27apiVersion\x27 should follow format \x27group/version\x27 or \x27v1\x27"

/-- Python `isinstance(v, str)`. -/
def isYamlStr (v : Yaml) : Bool :=
  match v with
  | Yaml.str _ => true
  | _ => false

/-- Whether the string holds a slash character (Python `a_slash in s`). -/
def containsSlashChar (s : String) : Bool :=
  s.data.any (fun c => c == Char.ofNat 47)

/-- Python `a_slash in api_version`, false on non-strings (the source only
evaluates it after the isinstance check succeeds). -/
def yamlStrContainsSlash (v : Yaml) : Bool :=
  match v with
  | Yaml.str s => containsSlashChar s
  | _ => false

/-- Python `api_version == v1-literal`: a non-string never equals a string. -/
def yamlEqV1 (v : Yaml) : Bool :=
  match v with
  | Yaml.str s => s == "v1"
  | _ => false

/-- The apiVersion branch of `validate_kubernetes_manifest`, applied to the
value found under the apiVersion key. -/
def apiVersionErrors (file_path : String) (api_version : Yaml) : List String :=
  if !(isYamlStr api_version) || !(yamlStrContainsSlash api_version) then
    if yamlEqV1 api_version then [] else [apiVersionError file_path]
  else []

/-- The apiVersion branch of `validate_kubernetes_manifest`, guarded by the
presence of the apiVersion key. -/
def apiVersionFieldErrors (file_path : String)
    (entries : List (String × Yaml)) : List String :=
  match lookupKey entries "apiVersion" with
  | none => []
  | some v => apiVersionErrors file_path v

/-- `validate_kubernetes_manifest`, translated branch for branch from the
source: required fields, then metadata shape, then apiVersion format, all
errors accumulated. -/
def validate_kubernetes_manifest (file_path : String) (parsed : ReadParse) :
    Bool × List String :=
  match parsed with
  | .parseErr e => (false, ["YAML error in " ++ file_path ++ ": " ++ e])
  | .readErr e =>
      (false, ["Error validating Kubernetes manifest " ++ file_path ++ ": " ++ e])
  | .ok content =>
    match content with
    | Yaml.map entries =>
        let errors := requiredFieldErrors file_path entries
          ++ metadataErrors file_path entries
          ++ apiVersionFieldErrors file_path entries
        (errors.isEmpty, errors)
    | _ => (false, [file_path ++ ": Root must be a dictionary"])

/-- Python `content.count(c)` for a single character. -/
def countChar (content : String) (c : Char) : Nat :=
  (content.toList.filter (fun x => x == c)).length

/-- The opening brace character. -/
def braceOpen : Char := Char.ofNat 123

/-- The closing brace character. -/
def braceClose : Char := Char.ofNat 125

/-- The opening bracket character. -/
def bracketOpen : Char := Char.ofNat 91

/-- The closing bracket character. -/
def bracketClose : Char := Char.ofNat 93

/-- The brace-balance check of `validate_terraform`. -/
def braceErrors (file_path content : String) : List String :=
  let open_braces := countChar content braceOpen
  let close_braces := countChar content braceClose
  if open_braces != close_braces then
    [file_path ++ ": Unbalanced braces (\x7b: " ++ toString open_braces ++
      ", \x7d: " ++ toString close_braces ++ ")"]
  else []

/-- The bracket-balance check of `validate_terraform`. -/
def bracketErrors (file_path content : String) : List String :=
  let open_brackets := countChar content bracketOpen
  let close_brackets := countChar content bracketClose
  if open_brackets != close_brackets then
    [file_path ++ ": Unbalanced brackets ([: " ++ toString open_brackets ++
      ", ]: " ++ toString close_brackets ++ ")"]
  else []

/-- Whether `pat` starts the list `s`. -/
def listStartsWith : List Char → List Char → Bool
  | [], _ => true
  | _ :: _, [] => false
  | a :: pat, b :: s => a == b && listStartsWith pat s

/-- Whether `pat` occurs somewhere in `s` (Python substring membership). -/
def listContainsSub (pat : List Char) : List Char → Bool
  | [] => listStartsWith pat []
  | c :: s => listStartsWith pat (c :: s) || listContainsSub pat s

/-- Python `pat in s` on strings. -/
def strContainsSub (s pat : String) : Bool :=
  listContainsSub pat.data s.data

/-- Python `s.endswith(suffix)`. -/
def pyEndsWith (s suffix : String) : Bool :=
  listStartsWith suffix.data.reverse s.data.reverse

/-- The Terraform block keywords, in source order. -/
def tf_keywords : List String :=
  ["resource", "data", "variable", "output", "provider", "module", "terraform"]

/-- The keyword check of `validate_terraform`: a substring search over the
whole raw text. -/
def keywordErrors (file_path content : String) : List String :=
  if !(tf_keywords.any (fun kw => strContainsSub content kw)) then
    [file_path ++
      ": No Terraform blocks found (resource, data, variable, output, provider, module, or terraform)"]
  else []

/-- `validate_terraform`: all three textual checks run unconditionally and
their errors are concatenated. -/
def validate_terraform (file_path : String) (raw : ReadRaw) : Bool × List String :=
  match raw with
  | .readErr e => (false, ["Error validating Terraform file " ++ file_path ++ ": " ++ e])
  | .ok content =>
      let errors := braceErrors file_path content
        ++ bracketErrors file_path content
        ++ keywordErrors file_path content
      (errors.isEmpty, errors)

/-- Outcome of `jsonschema.validate(instance, schema)`: success, or the first
violation it raises, carrying the message and the path to the offending field. -/
inductive SchemaCheck where
  | ok
  | violation (message : String) (path : List String)

/-- `validate_json_schema`, translated branch for branch from the source.
Takes the outcome of parsing the data file, the optional schema path with its
existence on disk and parse outcome, and the outcome of the jsonschema call.
A schema-file parse error is caught by the same outer handler as a data-file
parse error, so its message names the data file. -/
def validate_json_schema (file_path : String) (dataParsed : ReadParse)
    (schema_path : Option String) (schema_exists : Bool)
    (schemaParsed : ReadParse) (check : SchemaCheck) : Bool × List String :=
  match dataParsed with
  | .parseErr e => (false, ["JSON syntax error in " ++ file_path ++ ": " ++ e])
  | .readErr e =>
      (false, ["Error validating JSON schema for " ++ file_path ++ ": " ++ e])
  | .ok _ =>
    match schema_path with
    | none => (true, [])
    | some sp =>
      if !schema_exists then (false, ["Schema file not found: " ++ sp])
      else
        match schemaParsed with
        | .parseErr e => (false, ["JSON syntax error in " ++ file_path ++ ": " ++ e])
        | .readErr e =>
            (false, ["Error validating JSON schema for " ++ file_path ++ ": " ++ e])
        | .ok _ =>
          match check with
          | .ok => (true, [])
          | .violation msg path =>
            let errors := [file_path ++ ": Schema validation error: " ++ msg]
              ++ (if path.isEmpty then []
                  else ["  Path: " ++ String.intercalate "." path])
            (errors.isEmpty, errors)

/-- Python `s.lower()` (ASCII case folding, as `Char.toLower` performs). -/
def pyLower (s : String) : String :=
  String.mk (s.data.map Char.toLower)

/-- The two components of `Path(file_path)` the detector consults: the base
name and the name of the immediate parent directory. -/
structure FPath where
  parentName : String
  name : String

/-- The rule chain of `detect_file_type`, applied to the already-lowercased
base name `filename` and the (not lowercased) parent directory name; only the
yaml/yml content-sniffing rule consults the parsed content. -/
def detectFromName (parent_name filename : String) (parsed : ReadParse) : String :=
  if pyEndsWith filename ".md" || pyEndsWith filename ".markdown" then "markdown"
  else if pyEndsWith filename ".txt" || pyEndsWith filename ".log" then "text"
  else if pyEndsWith filename ".py" || pyEndsWith filename ".pyc" then "python"
  else if pyEndsWith filename ".sh" || pyEndsWith filename ".bash" then "shell"
  else if strContainsSub filename "docker-compose" || filename == "compose.yml"
      || filename == "compose.yaml" then "docker-compose"
  else if pyEndsWith filename ".tf" || pyEndsWith filename ".tf.json" then "terraform"
  else if strContainsSub filename "k8s" || strContainsSub filename "kubernetes"
      || parent_name == "k8s" then "kubernetes"
  else if pyEndsWith filename ".json" then "json"
  else if pyEndsWith filename ".yaml" || pyEndsWith filename ".yml" then
    match parsed with
    | ReadParse.ok (Yaml.map entries) =>
        if hasKey entries "apiVersion" && hasKey entries "kind" then "kubernetes"
        else if hasKey entries "services" || hasKey entries "version" then "docker-compose"
        else "yaml"
    | _ => "yaml"
  else "unknown"

/-- `detect_file_type`, translated from the source: `filename =
path.name.lower()` (the parent directory name is not lowercased), then the
rules of `detectFromName` in order. -/
def detect_file_type (path : FPath) (parsed : ReadParse) : String :=
  detectFromName path.parentName (pyLower path.name) parsed

/-- A file as the orchestrator sees it: its path (string form for messages,
split form for detection) and the outcomes of reading it as YAML, as JSON and
as raw text. -/
structure FileModel where
  path : FPath
  pathStr : String
  yamlParsed : ReadParse
  jsonParsed : ReadParse
  raw : ReadRaw

/-- The non-config file types `validate_file` and `validate_directory` skip. -/
def non_config_types : List String := ["markdown", "text", "python", "shell"]

/-- The file type `validate_file` works with: the caller hint, or else the
detector result. -/
def resolved_type (f : FileModel) (hint : Option String) : String :=
  match hint with
  | some t => t
  | none => detect_file_type f.path f.yamlParsed

/-- The syntax phase of `validate_file`: YAML for the yaml-family types,
JSON for json, nothing otherwise. -/
def syntaxPhase (f : FileModel) (file_type : String) : Bool × List String :=
  if file_type == "yaml" || file_type == "docker-compose" || file_type == "kubernetes" then
    validate_yaml f.pathStr f.yamlParsed
  else if file_type == "json" then
    validate_json f.pathStr f.jsonParsed
  else (true, [])

/-- The structural phase of `validate_file`: the format-specific validator,
or nothing for generic yaml/json. -/
def structuralPhase (f : FileModel) (file_type : String) : List String :=
  if file_type == "docker-compose" then
    (validate_docker_compose f.pathStr f.yamlParsed).2
  else if file_type == "kubernetes" then
    (validate_kubernetes_manifest f.pathStr f.yamlParsed).2
  else if file_type == "terraform" then
    (validate_terraform f.pathStr f.raw).2
  else []

/-- `validate_file`, translated branch for branch from the source: existence
check, type resolution, non-config skip, syntax phase with early return on
failure, structural phase, final validity = empty error list. -/
def validate_file (f : FileModel) (file_exists : Bool) (hint : Option String) :
    Bool × List String × String :=
  if !file_exists then (false, ["File not found: " ++ f.pathStr], "unknown")
  else
    let file_type := resolved_type f hint
    if non_config_types.contains file_type then (true, [], file_type)
    else
      let syn := syntaxPhase f file_type
      if !syn.1 then (false, syn.2, file_type)
      else
        let errors := syn.2 ++ structuralPhase f file_type
        (errors.isEmpty, errors, file_type)

/-- Shell-glob matching with the star wildcard, as `fnmatch`/`pathlib`
match the default patterns against a file name: a star matches any run of
characters. -/
def globMatchList : List Char → List Char → Bool
  | [], s => s.isEmpty
  | c :: pat, s =>
    if c == Char.ofNat 42 then
      s.tails.any (fun t => globMatchList pat t)
    else
      match s with
      | [] => false
      | d :: s2 => c == d && globMatchList pat s2

/-- Whether a file name matches one glob pattern. -/
def matches_pattern (pattern name : String) : Bool :=
  globMatchList pattern.toList name.toList

/-- The default patterns of `validate_directory`, in source order. -/
def default_patterns : List String :=
  ["*.yaml", "*.yml", "*.json", "*.tf", "docker-compose*.yml", "docker-compose*.yaml"]

/-- `Path(directory).rglob(pattern)` restricted to files: the files of the
tree whose names match the pattern, in traversal order. -/
def rglob (files : List FileModel) (pattern : String) : List FileModel :=
  files.filter (fun f => matches_pattern pattern f.path.name)

/-- Python `d[k] = v` on a dict kept as an association list in insertion
order: an existing key keeps its position, a new key goes to the end. -/
def dictInsert (d : List (String × String)) (k v : String) :
    List (String × String) :=
  if d.any (fun p => p.1 == k) then
    d.map (fun p => if p.1 == k then (p.1, v) else p)
  else d ++ [(k, v)]

/-- The errors one visit of a file contributes to the aggregate list of
`validate_directory`: its errors when it is invalid and of a config type,
nothing otherwise. -/
def fileErrors (f : FileModel) : List String :=
  let r := validate_file f true none
  if !r.1 && !(non_config_types.contains r.2.2) then r.2.1 else []

/-- The body of the inner loop of `validate_directory`: validate the file,
record its type, and append its errors when it is an invalid config file. -/
def dirStep (acc : List String × List (String × String)) (f : FileModel) :
    List String × List (String × String) :=
  let r := validate_file f true none
  let file_types := dictInsert acc.2 f.pathStr r.2.2
  let all_errors :=
    if !r.1 && !(non_config_types.contains r.2.2) then acc.1 ++ r.2.1 else acc.1
  (all_errors, file_types)

/-- `validate_directory`, translated from the source: for each pattern in
order, for each file the pattern matches in traversal order, validate the
file (there is no deduplication across patterns), accumulating the aggregate
error list and the path-to-type dict. -/
def validate_directory (files : List FileModel) (patterns : List String) :
    Bool × List String × List (String × String) :=
  let acc := patterns.foldl (fun acc pattern => (rglob files pattern).foldl dirStep acc) ([], [])
  (acc.1.isEmpty, acc.1, acc.2)

/-! ## Theorems -/

/-- Claim C1, code evaluation at the divergent input: a YAML mapping that has
a version key but no services key is accepted by `validate_docker_compose`
with no errors at all, because the missing-services branch only fires when
version is also absent.  The spec requires a missing-services error whenever
the services key is absent, version present or not. -/
theorem c1_code_evaluation :
    validate_docker_compose "docker-compose.yml"
      (ReadParse.ok (Yaml.map [("version", Yaml.str "3.8")])) = (true, []) := rfl

/-- Claim C4: the detection rules apply in first-match-wins order.  The name
docker-compose.override.yml and the exact name compose.yaml resolve to
docker-compose, pod.yaml under a parent directory k8s resolves to kubernetes;
a non-config extension beats the compose rule, the compose rule beats the k8s
rule, the .tf rule beats the k8s rule, the k8s rule beats the .json rule;
.json resolves without looking at content, .yaml/.yml sniffs the parsed
content, and anything else is unknown. -/
theorem c4_detect_first_match_wins :
    (∀ (d : String) (parsed : ReadParse),
      detect_file_type ⟨d, "docker-compose.override.yml"⟩ parsed = "docker-compose")
  ∧ (∀ (d : String) (parsed : ReadParse),
      detect_file_type ⟨d, "compose.yaml"⟩ parsed = "docker-compose")
  ∧ (∀ (parsed : ReadParse),
      detect_file_type ⟨"k8s", "pod.yaml"⟩ parsed = "kubernetes")
  ∧ (∀ (d : String) (parsed : ReadParse),
      detect_file_type ⟨d, "docker-compose.md"⟩ parsed = "markdown")
  ∧ (∀ (d : String) (parsed : ReadParse),
      detect_file_type ⟨d, "docker-compose-k8s.yml"⟩ parsed = "docker-compose")
  ∧ (∀ (d : String) (parsed : ReadParse),
      detect_file_type ⟨d, "k8s.tf"⟩ parsed = "terraform")
  ∧ (∀ (d : String) (parsed : ReadParse),
      detect_file_type ⟨d, "k8s-config.json"⟩ parsed = "kubernetes")
  ∧ (∀ (parsed : ReadParse),
      detect_file_type ⟨"etc", "config.json"⟩ parsed = "json")
  ∧ detect_file_type ⟨"etc", "app.yaml"⟩
      (ReadParse.ok (Yaml.map [("apiVersion", Yaml.str "v1"), ("kind", Yaml.str "Pod")]))
      = "kubernetes"
  ∧ detect_file_type ⟨"etc", "app.yaml"⟩
      (ReadParse.ok (Yaml.map [("services", Yaml.map [])])) = "docker-compose"
  ∧ detect_file_type ⟨"etc", "app.yaml"⟩ (ReadParse.parseErr "bad") = "yaml"
  ∧ (∀ (parsed : ReadParse),
      detect_file_type ⟨"etc", "notes.xyz"⟩ parsed = "unknown") := by
  refine ⟨?_, ?_, ?_, ?_, ?_, ?_, ?_, ?_, rfl, rfl, rfl, ?_⟩ <;> intros <;> rfl

/-- Claim C10: detection is case-insensitive in the base name, because the
name is lowercased before every comparison: two names with equal lowercasings
detect identically, so CONFIG.JSON is json and Docker-Compose.YML is
docker-compose; the parent-directory comparison against k8s is not
lowercased, so a parent named K8s does not trigger the kubernetes rule while
a parent named k8s does. -/
theorem c10_detect_case_insensitive_name :
    (∀ (parent n1 n2 : String) (parsed : ReadParse), pyLower n1 = pyLower n2 →
      detect_file_type ⟨parent, n1⟩ parsed = detect_file_type ⟨parent, n2⟩ parsed)
  ∧ (∀ (parsed : ReadParse),
      detect_file_type ⟨"etc", "CONFIG.JSON"⟩ parsed = "json")
  ∧ (∀ (d : String) (parsed : ReadParse),
      detect_file_type ⟨d, "Docker-Compose.YML"⟩ parsed = "docker-compose")
  ∧ detect_file_type ⟨"K8s", "pod.yaml"⟩ (ReadParse.ok (Yaml.map [])) = "yaml"
  ∧ detect_file_type ⟨"k8s", "pod.yaml"⟩ (ReadParse.ok (Yaml.map [])) = "kubernetes" := by
  refine ⟨?_, fun parsed => rfl, fun d parsed => rfl, rfl, rfl⟩
  intro parent n1 n2 parsed h
  unfold detect_file_type
  rw [h]

/-- Claim C10 witness: the case-insensitivity part applied to the concrete
pair CONFIG.JSON / config.json. -/
theorem c10_detect_case_insensitive_name_witness :
    detect_file_type ⟨"etc", "CONFIG.JSON"⟩ (ReadParse.parseErr "bad")
      = detect_file_type ⟨"etc", "config.json"⟩ (ReadParse.parseErr "bad") :=
  c10_detect_case_insensitive_name.1 "etc" "CONFIG.JSON" "config.json"
    (ReadParse.parseErr "bad") rfl

/-- Claim C5: for a mapping with an apiVersion key, the apiVersion branch of
`validate_kubernetes_manifest` passes exactly when the value is a string that
equals v1 or contains a slash; every other value, a non-string such as the
integer 123 included, yields the one format error of that branch, and the
branch output appears as the final segment of the manifest validator error
list. -/
theorem c5_apiVersion_check :
    ∀ (fp : String) (v : Yaml) (entries : List (String × Yaml)),
      (apiVersionErrors fp v = [] ↔
        ∃ s, v = Yaml.str s ∧ (s = "v1" ∨ containsSlashChar s = true))
    ∧ (apiVersionErrors fp v = [] ∨ apiVersionErrors fp v = [apiVersionError fp])
    ∧ apiVersionErrors fp (Yaml.int 123) = [apiVersionError fp]
    ∧ (lookupKey entries "apiVersion" = some v →
        ∃ pre, (validate_kubernetes_manifest fp (ReadParse.ok (Yaml.map entries))).2
          = pre ++ apiVersionErrors fp v) := by
  intro fp v entries
  refine ⟨?_, ?_, rfl, ?_⟩
  · cases v <;>
      simp only [apiVersionErrors, isYamlStr, yamlStrContainsSlash, yamlEqV1, Bool.not_true,
        Bool.not_false, Bool.false_or, Bool.true_or, if_true, if_false] <;>
      try simp
    case str s =>
      cases h1 : containsSlashChar s <;> cases h2 : s == "v1" <;> simp_all
  · unfold apiVersionErrors
    split
    · split
      · exact Or.inl rfl
      · exact Or.inr rfl
    · exact Or.inl rfl
  · intro h
    refine ⟨requiredFieldErrors fp entries ++ metadataErrors fp entries, ?_⟩
    have e2 : (validate_kubernetes_manifest fp (ReadParse.ok (Yaml.map entries))).2
        = requiredFieldErrors fp entries ++ metadataErrors fp entries
          ++ apiVersionFieldErrors fp entries := rfl
    rw [e2]
    simp [apiVersionFieldErrors, h, List.append_assoc]

/-- Claim C5 witness: the branch composition part at a concrete manifest with
apiVersion apps/v1. -/
theorem c5_apiVersion_check_witness :
    ∃ pre, (validate_kubernetes_manifest "pod.yaml"
        (ReadParse.ok (Yaml.map [("apiVersion", Yaml.str "apps/v1")]))).2
      = pre ++ apiVersionErrors "pod.yaml" (Yaml.str "apps/v1") :=
  (c5_apiVersion_check "pod.yaml" (Yaml.str "apps/v1")
    [("apiVersion", Yaml.str "apps/v1")]).2.2.2 rfl

/-- The required-fields loop of the Kubernetes validator appends one message
per missing field, in order. -/
theorem foldl_missing_eq (fp : String) (entries : List (String × Yaml)) :
    ∀ (l : List String) (acc : List String),
      l.foldl (fun errors field =>
        if hasKey entries field then errors
        else errors ++ [missingFieldError fp field]) acc
      = acc ++ (l.filter (fun field => !(hasKey entries field))).map (missingFieldError fp) := by
  intro l
  induction l with
  | nil => intro acc; simp
  | cons a l ih =>
      intro acc
      cases h : hasKey entries a <;> simp [h, ih]

/-- The required-fields errors are the missing fields, kept in source order. -/
theorem requiredFieldErrors_eq (fp : String) (entries : List (String × Yaml)) :
    requiredFieldErrors fp entries
      = (required_fields.filter (fun field => !(hasKey entries field))).map
          (missingFieldError fp) := by
  unfold requiredFieldErrors
  rw [foldl_missing_eq]
  simp

/-- Claim C6: the three required top-level keys are checked independently;
every missing one contributes its own error to the manifest validator output,
so a mapping missing both apiVersion and metadata gets at least two errors,
and the concrete document with only a kind key yields exactly the two
missing-field errors. -/
theorem c6_missing_fields_independent :
    ∀ (fp : String) (entries : List (String × Yaml)),
      (∀ field, field ∈ required_fields → hasKey entries field = false →
        missingFieldError fp field
          ∈ (validate_kubernetes_manifest fp (ReadParse.ok (Yaml.map entries))).2)
    ∧ (hasKey entries "apiVersion" = false → hasKey entries "metadata" = false →
        2 ≤ (validate_kubernetes_manifest fp (ReadParse.ok (Yaml.map entries))).2.length)
    ∧ validate_kubernetes_manifest fp (ReadParse.ok (Yaml.map [("kind", Yaml.str "Pod")]))
        = (false, [missingFieldError fp "apiVersion", missingFieldError fp "metadata"]) := by
  intro fp entries
  have e2 : (validate_kubernetes_manifest fp (ReadParse.ok (Yaml.map entries))).2
      = requiredFieldErrors fp entries ++ metadataErrors fp entries
        ++ apiVersionFieldErrors fp entries := rfl
  refine ⟨?_, ?_, rfl⟩
  · intro field hf hk
    rw [e2]
    apply List.mem_append_left
    apply List.mem_append_left
    rw [requiredFieldErrors_eq]
    exact List.mem_map_of_mem _ (List.mem_filter.mpr ⟨hf, by simp [hk]⟩)
  · intro h1 h2
    have hreq : 2 ≤ (requiredFieldErrors fp entries).length := by
      rw [requiredFieldErrors_eq, List.length_map]
      cases h3 : hasKey entries "kind" <;>
        simp [required_fields, h1, h2, h3, List.filter]
    rw [e2]
    simp only [List.length_append]
    omega

/-- Claim C6 witness: the independence parts applied to the concrete mapping
with only a kind key. -/
theorem c6_missing_fields_independent_witness :
    missingFieldError "pod.yaml" "metadata"
      ∈ (validate_kubernetes_manifest "pod.yaml"
          (ReadParse.ok (Yaml.map [("kind", Yaml.str "Pod")]))).2
    ∧ 2 ≤ (validate_kubernetes_manifest "pod.yaml"
          (ReadParse.ok (Yaml.map [("kind", Yaml.str "Pod")]))).2.length :=
  ⟨(c6_missing_fields_independent "pod.yaml" [("kind", Yaml.str "Pod")]).1
      "metadata" (by simp [required_fields]) rfl,
    (c6_missing_fields_independent "pod.yaml" [("kind", Yaml.str "Pod")]).2.1 rfl rfl⟩

/-- The brace check reports no error exactly when the brace counts agree. -/
theorem braceErrors_nil_iff (fp content : String) :
    braceErrors fp content = [] ↔
      countChar content braceOpen = countChar content braceClose := by
  unfold braceErrors
  dsimp only
  split <;> simp_all [bne_iff_ne]

/-- The bracket check reports no error exactly when the bracket counts agree. -/
theorem bracketErrors_nil_iff (fp content : String) :
    bracketErrors fp content = [] ↔
      countChar content bracketOpen = countChar content bracketClose := by
  unfold bracketErrors
  dsimp only
  split <;> simp_all [bne_iff_ne]

/-- The keyword check reports no error exactly when some keyword occurs. -/
theorem keywordErrors_nil_iff (fp content : String) :
    keywordErrors fp content = [] ↔
      tf_keywords.any (fun kw => strContainsSub content kw) = true := by
  unfold keywordErrors
  split <;> simp_all

/-- Claim C7: `validate_terraform` always runs its three checks and merges
their errors (0 to 3 of them); it is valid exactly when braces balance,
brackets balance and some Terraform keyword occurs; an extra open brace
fails with a message citing both counts, and keyword-free text fails even
with balanced braces and brackets. -/
theorem c7_terraform_all_checks :
    ∀ (fp content : String),
      ((validate_terraform fp (ReadRaw.ok content)).1 = true ↔
        (countChar content braceOpen = countChar content braceClose ∧
         countChar content bracketOpen = countChar content bracketClose ∧
         tf_keywords.any (fun kw => strContainsSub content kw) = true))
    ∧ (validate_terraform fp (ReadRaw.ok content)).2
        = braceErrors fp content ++ bracketErrors fp content ++ keywordErrors fp content
    ∧ (validate_terraform fp (ReadRaw.ok content)).2.length ≤ 3
    ∧ validate_terraform "main.tf" (ReadRaw.ok "resource \x7b\x7b\x7d")
        = (false, ["main.tf: Unbalanced braces (\x7b: 2, \x7d: 1)"])
    ∧ validate_terraform "main.tf" (ReadRaw.ok "x = [1]")
        = (false,
           ["main.tf: No Terraform blocks found (resource, data, variable, output, provider, module, or terraform)"]) := by
  intro fp content
  have e2 : (validate_terraform fp (ReadRaw.ok content)).2
      = braceErrors fp content ++ bracketErrors fp content ++ keywordErrors fp content := rfl
  refine ⟨?_, e2, ?_, rfl, rfl⟩
  · rw [show (validate_terraform fp (ReadRaw.ok content)).1
        = (braceErrors fp content ++ bracketErrors fp content
            ++ keywordErrors fp content).isEmpty from rfl]
    simp [List.isEmpty_iff, List.append_eq_nil, braceErrors_nil_iff,
      bracketErrors_nil_iff, keywordErrors_nil_iff, and_assoc]
  · have hb : (braceErrors fp content).length ≤ 1 := by
      unfold braceErrors; dsimp only; split <;> simp
    have hk : (bracketErrors fp content).length ≤ 1 := by
      unfold bracketErrors; dsimp only; split <;> simp
    have hw : (keywordErrors fp content).length ≤ 1 := by
      unfold keywordErrors; split <;> simp
    rw [e2]
    simp only [List.length_append]
    omega

/-- When the syntax phase of `validate_file` fails for a config type, the
result is exactly the syntax-phase errors and the structural phase is skipped. -/
theorem validate_file_syntax_stop (f : FileModel) (t : String)
    (hc : non_config_types.contains t = false)
    (hs : (syntaxPhase f t).1 = false) :
    validate_file f true (some t) = (false, (syntaxPhase f t).2, t) := by
  have hc2 : t ∉ non_config_types := by simpa using hc
  unfold validate_file
  simp [resolved_type, hc2, hs]

/-- Claim C3: for the yaml-family types the YAML syntax checker runs first
and a failure is returned unchanged, with the structural validator never
consulted; for json likewise with the JSON checker; for terraform there is
no syntax phase at all and the result is exactly the Terraform validator
applied to the raw text. -/
theorem c3_syntax_short_circuit :
    ∀ (f : FileModel) (es : List String),
      (∀ t, (t = "yaml" ∨ t = "docker-compose" ∨ t = "kubernetes") →
        validate_yaml f.pathStr f.yamlParsed = (false, es) →
        validate_file f true (some t) = (false, es, t))
    ∧ (validate_json f.pathStr f.jsonParsed = (false, es) →
        validate_file f true (some "json") = (false, es, "json"))
    ∧ syntaxPhase f "terraform" = (true, [])
    ∧ validate_file f true (some "terraform")
        = ((validate_terraform f.pathStr f.raw).2.isEmpty,
           (validate_terraform f.pathStr f.raw).2, "terraform") := by
  intro f es
  refine ⟨?_, ?_, rfl, rfl⟩
  · rintro t (rfl | rfl | rfl) h
    · rw [validate_file_syntax_stop f "yaml" rfl
        (show (validate_yaml f.pathStr f.yamlParsed).1 = false by rw [h])]
      show (false, (validate_yaml f.pathStr f.yamlParsed).2, "yaml") = _
      rw [h]
    · rw [validate_file_syntax_stop f "docker-compose" rfl
        (show (validate_yaml f.pathStr f.yamlParsed).1 = false by rw [h])]
      show (false, (validate_yaml f.pathStr f.yamlParsed).2, "docker-compose") = _
      rw [h]
    · rw [validate_file_syntax_stop f "kubernetes" rfl
        (show (validate_yaml f.pathStr f.yamlParsed).1 = false by rw [h])]
      show (false, (validate_yaml f.pathStr f.yamlParsed).2, "kubernetes") = _
      rw [h]
  · intro h
    rw [validate_file_syntax_stop f "json" rfl
      (show (validate_json f.pathStr f.jsonParsed).1 = false by rw [h])]
    show (false, (validate_json f.pathStr f.jsonParsed).2, "json") = _
    rw [h]

/-- Claim C3 witness: a docker-compose file whose YAML does not parse is
rejected with exactly the syntax error, so the structural compose validator
never contributes. -/
theorem c3_syntax_short_circuit_witness :
    validate_file
      { path := ⟨"deploy", "docker-compose.yml"⟩
        pathStr := "deploy/docker-compose.yml"
        yamlParsed := ReadParse.parseErr "bad indent"
        jsonParsed := ReadParse.ok Yaml.null
        raw := ReadRaw.ok "" } true (some "docker-compose")
      = (false, ["YAML syntax error in deploy/docker-compose.yml: bad indent"],
         "docker-compose") :=
  (c3_syntax_short_circuit
      { path := ⟨"deploy", "docker-compose.yml"⟩
        pathStr := "deploy/docker-compose.yml"
        yamlParsed := ReadParse.parseErr "bad indent"
        jsonParsed := ReadParse.ok Yaml.null
        raw := ReadRaw.ok "" }
      ["YAML syntax error in deploy/docker-compose.yml: bad indent"]).1
    "docker-compose" (Or.inr (Or.inl rfl)) rfl

/-- A non-config file with unparseable content, for the C8 instance. -/
def c8_file : FileModel :=
  { path := ⟨"docs", "README.md"⟩
    pathStr := "docs/README.md"
    yamlParsed := ReadParse.parseErr "boom"
    jsonParsed := ReadParse.parseErr "boom"
    raw := ReadRaw.ok "anything at all" }

/-- Claim C8: a file whose resolved type is one of the non-config types is
reported valid with no errors and no check runs, whatever its content; in a
directory walk such a file contributes nothing to the aggregate error list. -/
theorem c8_non_config_always_valid :
    ∀ (f : FileModel) (hint : Option String),
      (non_config_types.contains (resolved_type f hint) = true →
        validate_file f true hint = (true, [], resolved_type f hint))
    ∧ (non_config_types.contains (validate_file f true none).2.2 = true →
        fileErrors f = [])
    ∧ validate_file c8_file true none = (true, [], "markdown") := by
  intro f hint
  refine ⟨fun h => ?_, fun h => ?_, rfl⟩
  · have h2 : resolved_type f hint ∈ non_config_types := by simpa using h
    unfold validate_file
    simp [h2]
  · have h2 : (validate_file f true none).2.2 ∈ non_config_types := by simpa using h
    unfold fileErrors
    simp [h2]

/-- Claim C8 witness: the skip and the no-contribution parts applied to the
concrete markdown file with unparseable content. -/
theorem c8_non_config_always_valid_witness :
    validate_file c8_file true none = (true, [], "markdown")
    ∧ fileErrors c8_file = [] :=
  ⟨(c8_non_config_always_valid c8_file none).1 rfl,
    (c8_non_config_always_valid c8_file none).2.1 rfl⟩

/-- The error component of one directory step appends exactly the errors the
file contributes. -/
theorem dirStep_fst (acc : List String × List (String × String)) (f : FileModel) :
    (dirStep acc f).1 = acc.1 ++ fileErrors f := by
  unfold dirStep fileErrors
  dsimp only
  split <;> simp

/-- The dict component of one directory step records the file type under the
path. -/
theorem dirStep_snd (acc : List String × List (String × String)) (f : FileModel) :
    (dirStep acc f).2 = dictInsert acc.2 f.pathStr (validate_file f true none).2.2 := rfl

/-- Folding the directory step over a file list appends each visited file
contribution in order. -/
theorem foldl_dirStep_fst (l : List FileModel) :
    ∀ (acc : List String × List (String × String)),
      (l.foldl dirStep acc).1 = acc.1 ++ l.flatMap fileErrors := by
  induction l with
  | nil => intro acc; simp
  | cons f l ih =>
      intro acc
      rw [List.foldl_cons, ih, dirStep_fst, List.flatMap_cons, List.append_assoc]

/-- Folding the per-pattern loops appends, pattern by pattern, the
contributions of every file each pattern matches. -/
theorem foldl_patterns_fst (files : List FileModel) :
    ∀ (ps : List String) (acc : List String × List (String × String)),
      (ps.foldl (fun acc pattern => (rglob files pattern).foldl dirStep acc) acc).1
        = acc.1 ++ ps.flatMap (fun pat => (rglob files pat).flatMap fileErrors) := by
  intro ps
  induction ps with
  | nil => intro acc; simp
  | cons pat ps ih =>
      intro acc
      rw [List.foldl_cons, ih, foldl_dirStep_fst, List.flatMap_cons, List.append_assoc]

/-- Inserting into the path-to-type dict adds the new key and keeps the rest. -/
theorem dictInsert_keys (d : List (String × String)) (k v x : String) :
    x ∈ (dictInsert d k v).map Prod.fst ↔ x ∈ d.map Prod.fst ∨ x = k := by
  unfold dictInsert
  split
  next hany =>
    have hk : k ∈ d.map Prod.fst := by
      rcases List.any_eq_true.mp hany with ⟨p, hp, hpk⟩
      exact List.mem_map.mpr ⟨p, hp, by simpa using hpk⟩
    rw [List.map_map]
    have hfst : (Prod.fst ∘ fun p : String × String =>
        if p.1 == k then (p.1, v) else p) = Prod.fst := by
      funext p
      by_cases hp : p.1 = k <;> simp [hp]
    rw [hfst]
    constructor
    · exact Or.inl
    · rintro (hx | rfl)
      · exact hx
      · exact hk
  next hany =>
    simp [List.mem_append]

/-- The key set of the dict after the inner fold is the keys already present
plus the paths of the visited files. -/
theorem foldl_dirStep_keys (l : List FileModel) :
    ∀ (acc : List String × List (String × String)) (x : String),
      x ∈ ((l.foldl dirStep acc).2.map Prod.fst) ↔
        x ∈ acc.2.map Prod.fst ∨ ∃ f, f ∈ l ∧ f.pathStr = x := by
  induction l with
  | nil => intro acc x; simp
  | cons f l ih =>
      intro acc x
      rw [List.foldl_cons, ih, dirStep_snd, dictInsert_keys]
      simp only [List.mem_cons]
      constructor
      · rintro ((hx | rfl) | ⟨g, hg, rfl⟩)
        · exact Or.inl hx
        · exact Or.inr ⟨f, Or.inl rfl, rfl⟩
        · exact Or.inr ⟨g, Or.inr hg, rfl⟩
      · rintro (hx | ⟨g, (rfl | hg), rfl⟩)
        · exact Or.inl (Or.inl hx)
        · exact Or.inl (Or.inr rfl)
        · exact Or.inr ⟨g, hg, rfl⟩

/-- The key set of the dict after the outer fold is the keys already present
plus the paths of the files matched by some pattern. -/
theorem foldl_patterns_keys (files : List FileModel) :
    ∀ (ps : List String) (acc : List String × List (String × String)) (x : String),
      x ∈ ((ps.foldl (fun acc pattern => (rglob files pattern).foldl dirStep acc) acc).2.map
          Prod.fst) ↔
        x ∈ acc.2.map Prod.fst ∨ ∃ pat, pat ∈ ps ∧ ∃ f, f ∈ rglob files pat ∧ f.pathStr = x := by
  intro ps
  induction ps with
  | nil => intro acc x; simp
  | cons pat ps ih =>
      intro acc x
      rw [List.foldl_cons, ih, foldl_dirStep_keys]
      simp only [List.mem_cons]
      constructor
      · rintro ((hx | ⟨f, hf, rfl⟩) | ⟨p, hp, f, hf, rfl⟩)
        · exact Or.inl hx
        · exact Or.inr ⟨pat, Or.inl rfl, f, hf, rfl⟩
        · exact Or.inr ⟨p, Or.inr hp, f, hf, rfl⟩
      · rintro (hx | ⟨p, (rfl | hp), f, hf, rfl⟩)
        · exact Or.inl (Or.inl hx)
        · exact Or.inl (Or.inr ⟨f, hf, rfl⟩)
        · exact Or.inr ⟨p, hp, f, hf, rfl⟩

/-- A compose file whose YAML parses to a sequence, for the C2 counterexample:
its one structural error is reported. -/
def c2_file : FileModel :=
  { path := ⟨"deploy", "docker-compose.yml"⟩
    pathStr := "deploy/docker-compose.yml"
    yamlParsed := ReadParse.ok (Yaml.seq [])
    jsonParsed := ReadParse.ok Yaml.null
    raw := ReadRaw.ok "" }

/-- The error `c2_file` produces on each visit. -/
def c2_err : String := "deploy/docker-compose.yml: Root must be a dictionary"

/-- Claim C2 counterexample: the name docker-compose.yml matches both the
patterns with a star and yml and the docker-compose pattern of the default
list, and `validate_directory` validates the file once per matching pattern,
so its single error appears twice in the aggregate list — not at most once
as the claim states. -/
theorem c2_counterexample_double_validation :
    (validate_directory [c2_file] default_patterns).2.1 = [c2_err, c2_err]
    ∧ List.count c2_err (validate_directory [c2_file] default_patterns).2.1 = 2 :=
  ⟨rfl, rfl⟩

/-- Claim C2 as amended: `validate_directory` validates each file once per
matching pattern — a file matching several default patterns is validated once
for each and its errors appear once for each — and the key set of the
returned file-type map is exactly the set of files matched by at least one
pattern. -/
theorem c2_amended_per_pattern_visits :
    ∀ (files : List FileModel) (patterns : List String),
      (validate_directory files patterns).2.1
        = patterns.flatMap (fun pat => (rglob files pat).flatMap fileErrors)
      ∧ (∀ x, x ∈ ((validate_directory files patterns).2.2.map Prod.fst)
          ↔ ∃ pat, pat ∈ patterns ∧ ∃ f, f ∈ rglob files pat ∧ f.pathStr = x) := by
  intro files patterns
  constructor
  · have h := foldl_patterns_fst files patterns ([], [])
    simpa [validate_directory] using h
  · intro x
    have h := foldl_patterns_keys files patterns ([], []) x
    simpa [validate_directory] using h

/-- Claim C9: the schema validator succeeds with no errors exactly when the
data parses as JSON and either no schema path is given, or the schema exists,
parses, and the data conforms; on a violation only the first one is reported:
the message error plus at most one path line. -/
theorem c9_schema_validation :
    ∀ (fp : String) (dataParsed : ReadParse) (sp : Option String) (ex : Bool)
      (schemaParsed : ReadParse) (check : SchemaCheck),
      (validate_json_schema fp dataParsed sp ex schemaParsed check = (true, []) ↔
        ((∃ v, dataParsed = ReadParse.ok v) ∧
         (sp = none ∨ (ex = true ∧ (∃ w, schemaParsed = ReadParse.ok w) ∧
           check = SchemaCheck.ok))))
    ∧ (∀ (msg : String) (path : List String) (v w : Yaml),
        dataParsed = ReadParse.ok v → check = SchemaCheck.violation msg path →
        ∀ (s : String), sp = some s → ex = true →
        schemaParsed = ReadParse.ok w →
        (validate_json_schema fp dataParsed sp ex schemaParsed check).2
          = [fp ++ ": Schema validation error: " ++ msg]
            ++ (if path.isEmpty then []
                else ["  Path: " ++ String.intercalate "." path])
        ∧ 1 ≤ (validate_json_schema fp dataParsed sp ex schemaParsed check).2.length
        ∧ (validate_json_schema fp dataParsed sp ex schemaParsed check).2.length ≤ 2) := by
  intro fp dataParsed sp ex schemaParsed check
  constructor
  · cases dataParsed <;> cases sp <;> cases ex <;> cases schemaParsed <;> cases check <;>
      simp [validate_json_schema]
  · rintro msg path v w rfl rfl s rfl rfl rfl
    refine ⟨rfl, ?_, ?_⟩
    · rw [show (validate_json_schema fp (ReadParse.ok v) (some s) true
          (ReadParse.ok w) (SchemaCheck.violation msg path)).2
          = [fp ++ ": Schema validation error: " ++ msg]
            ++ (if path.isEmpty then []
                else ["  Path: " ++ String.intercalate "." path]) from rfl]
      simp
    · rw [show (validate_json_schema fp (ReadParse.ok v) (some s) true
          (ReadParse.ok w) (SchemaCheck.violation msg path)).2
          = [fp ++ ": Schema validation error: " ++ msg]
            ++ (if path.isEmpty then []
                else ["  Path: " ++ String.intercalate "." path]) from rfl]
      cases path <;> simp

/-- Claim C9 witness: the first-violation part at a concrete violation with a
one-step path. -/
theorem c9_schema_validation_witness :
    (validate_json_schema "data.json" (ReadParse.ok Yaml.null) (some "schema.json")
        true (ReadParse.ok Yaml.null)
        (SchemaCheck.violation "is a required property" ["name"])).2
      = ["data.json: Schema validation error: is a required property",
         "  Path: name"] := by
  have h := ((c9_schema_validation "data.json" (ReadParse.ok Yaml.null)
      (some "schema.json") true (ReadParse.ok Yaml.null)
      (SchemaCheck.violation "is a required property" ["name"])).2
      "is a required property" ["name"] Yaml.null Yaml.null rfl rfl "schema.json" rfl rfl rfl).1
  simpa using h

end ConfigValidator
